import Mathlib

/-!
Shallow embedding of the request-generation pathway of the repository
(src/src/ultralabel/llm/openai_.py): the `OpenAILLM` adapter's
construction-time validation, the retried chat-completion call, and
`_generate`'s prompt-formatting and response-parsing steps.

Python dynamic values that flow through `_generate` are modelled by the
small universe `PyVal`; the external completion endpoint is modelled by a
function from attempt index to outcome; warnings and the one network call
made at construction are recorded explicitly so that ordering claims can
be stated.
-/

namespace Ultralabel

/-- One role/content turn in OpenAI wire format (the dicts
`\x7b"role": ..., "content": ...\x7d` of the Python source). -/
structure Message where
  role : String
  content : String
deriving DecidableEq, Repr

/-- The universe of Python values that `_generate`'s prompt variable ranges
over: an instance of the `Prompt` class from `ultralabel.tasks.utils`, a
`list` of role/content turns (the provider-native wire form), a `str`, or
some other object carrying only its type name. -/
inductive PyVal where
  | promptObj
  | pyList (msgs : List Message)
  | pyStr (s : String)
  | pyOther (tname : String)
deriving DecidableEq, Repr

/-- `isinstance(prompt, Prompt)` of the source. -/
def PyVal.isPrompt : PyVal → Bool
  | .promptObj => true
  | _ => false

/-- `isinstance(prompt, list)` of the source. -/
def PyVal.isList : PyVal → Bool
  | .pyList _ => true
  | _ => false

/-- `type(prompt)` as rendered into the source's error and warning
messages. -/
def PyVal.typeName : PyVal → String
  | .promptObj => "Prompt"
  | .pyList _ => "list"
  | .pyStr _ => "str"
  | .pyOther t => t

/-- The exception classes of `openai.error` that can escape
`openai.ChatCompletion.create`, by kind; `other` covers any further
exception class by its name. -/
inductive OpenAIError where
  | apiError
  | timeout
  | rateLimitError
  | serviceUnavailableError
  | invalidRequestError
  | authenticationError
  | other (name : String)
deriving DecidableEq, Repr

/-- The tuple `_OPENAI_API_RETRY_ON_EXCEPTIONS = (APIError, Timeout,
RateLimitError, ServiceUnavailableError)` of the source, as the membership
test that `retry_if_exception_type` performs on a raised exception. -/
def _OPENAI_API_RETRY_ON_EXCEPTIONS (e : OpenAIError) : Bool :=
  match e with
  | .apiError => true
  | .timeout => true
  | .rateLimitError => true
  | .serviceUnavailableError => true
  | _ => false

/-- `_OPENAI_API_STOP_AFTER_ATTEMPT = 6` of the source. -/
def _OPENAI_API_STOP_AFTER_ATTEMPT : Nat := 6

/-- `_OPENAI_API_WAIT_RANDOM_EXPONENTIAL_MULTIPLIER = 1` of the source
(backoff timing; not otherwise modelled, timing is unobservable here). -/
def _OPENAI_API_WAIT_RANDOM_EXPONENTIAL_MULTIPLIER : Nat := 1

/-- `_OPENAI_API_WAIT_RANDOM_EXPONENTIAL_MAX = 10` of the source. -/
def _OPENAI_API_WAIT_RANDOM_EXPONENTIAL_MAX : Nat := 10

/-- One choice of the raw chat-completion response: the source reads
`choice["message"]["content"]`. -/
structure Choice where
  message : Message
deriving DecidableEq, Repr

/-- The raw chat-completion response: the source reads
`raw_response["choices"]` and otherwise returns the payload whole
(`to_dict_recursive` is the identity on this plain-data model). -/
structure RawResponse where
  choices : List Choice
deriving DecidableEq, Repr

/-- Modelled from the spec: the tenacity retry combinator applied by the
`@retry(...)` decorator on `_chat_completion_with_backoff` (the tenacity
library itself is not under src/). Spec section 4.2: the call "retries
only on a fixed set of transient error kinds", "Any other error kind
propagates immediately, uncaught", and "After exhausting max attempts,
the last transient error propagates to the caller". The retryable set and
the attempt ceiling are the source's configured
`_OPENAI_API_RETRY_ON_EXCEPTIONS` and `_OPENAI_API_STOP_AFTER_ATTEMPT`;
backoff waiting affects timing only and is not modelled.

`outcomes i` is what the i-th call (0-based) of
`openai.ChatCompletion.create` does; `remaining` is the number of retries
the stop condition still allows. Returns the final result and the number
of attempts performed. -/
def retryLoop (outcomes : Nat → Except OpenAIError RawResponse) :
    Nat → Nat → Except OpenAIError RawResponse × Nat
  | attempt, remaining =>
    match outcomes attempt with
    | .ok r => (.ok r, attempt + 1)
    | .error e =>
      if _OPENAI_API_RETRY_ON_EXCEPTIONS e then
        match remaining with
        | 0 => (.error e, attempt + 1)
        | Nat.succ rest => retryLoop outcomes (attempt + 1) rest
      else (.error e, attempt + 1)

/-- `OpenAILLM._chat_completion_with_backoff`: the completion call under
its configured retry policy (first attempt plus at most
`_OPENAI_API_STOP_AFTER_ATTEMPT - 1` retries). -/
def _chat_completion_with_backoff (outcomes : Nat → Except OpenAIError RawResponse) :
    Except OpenAIError RawResponse × Nat :=
  retryLoop outcomes 0 (_OPENAI_API_STOP_AFTER_ATTEMPT - 1)

/-! ### Adapter construction (`OpenAILLM.__init__` and `available_models`) -/

/-- The observable side effects of construction; the only network call the
constructor can make is `openai.Model.list()`, reached through the
`available_models` cached property inside the first `assert`. -/
inductive InitEvent where
  | fetchAvailableModels
deriving DecidableEq, Repr

/-- The two `assert` failures of `OpenAILLM.__init__`, as errors. -/
inductive InitError where
  | modelNotAvailable (model : String) (available : List String)
  | missingApiKey
deriving DecidableEq, Repr

/-- The inputs `__init__` draws on: the explicit `openai_api_key` argument,
the ambient `os.environ.get("OPENAI_API_KEY")`, the requested `model`, and
the `"id"` field of each entry of `openai.Model.list()["data"]` (absent
ids are `none`). -/
structure InitArgs where
  openai_api_key : Option String
  envApiKey : Option String
  model : String
  modelListIds : List (Option String)
deriving DecidableEq, Repr

/-- Adapter state left by a successful construction: the module-global
`openai.api_key` and `self.model`. -/
structure OpenAILLMState where
  apiKey : Option String
  model : String
deriving DecidableEq, Repr

/-- `openai.api_key = openai_api_key or os.environ.get("OPENAI_API_KEY")`:
Python `or` falls through on falsy values, so an explicit empty string
defers to the environment. -/
def resolveApiKey (arg envKey : Option String) : Option String :=
  match arg with
  | some s => if s = "" then envKey else some s
  | none => envKey

/-- `OpenAILLM.available_models`: the ids of `openai.Model.list()["data"]`
entries whose `"id"` is not None (a `cached_property`, so the underlying
network fetch happens once). -/
def available_models (modelListIds : List (Option String)) : List String :=
  modelListIds.filterMap id

/-- `OpenAILLM.__init__` after the base-class field assignments: sets
`openai.api_key` from the argument or the environment, asserts that
`model` is among `available_models` (forcing the `openai.Model.list()`
network fetch), stores `model`, and only then asserts that the key is not
None. Returns the trace of network events alongside the result. -/
def init (a : InitArgs) : List InitEvent × Except InitError OpenAILLMState :=
  let key := resolveApiKey a.openai_api_key a.envApiKey
  let available := available_models a.modelListIds
  if a.model ∈ available then
    if key.isSome then
      ([.fetchAvailableModels], .ok ⟨key, a.model⟩)
    else
      ([.fetchAvailableModels], .error .missingApiKey)
  else
    ([.fetchAvailableModels], .error (.modelNotAvailable a.model available))

/-! ### `_generate`: prompt formatting, completion request, response parsing -/

/-- The two `warnings.warn(...)` sites of `_generate`: the discouraged
custom-formatter-on-preformatted-prompt warning (carrying the offending
`type(prompt)` name) and the response-parse warning (carrying its full
message text). Both are `UserWarning`s: non-fatal, execution continues. -/
inductive Warning where
  | doubleFormatting (tname : String)
  | parseWarning (message : String)
deriving DecidableEq, Repr

/-- The errors `_generate` can raise: its own `ValueError` for a resolved
prompt that is not a `list` (carrying the offending value), or an
exception propagating out of the retried completion call. -/
inductive GenError where
  | valueError (actual : PyVal)
  | openAIError (e : OpenAIError)
deriving DecidableEq, Repr

/-- The message of `_generate`'s `ValueError`, which interpolates
`type(prompt)`. The interpolation of the prompt value's repr is elided;
only the type name matters to the message's diagnostic content. -/
def valueErrorMessage (p : PyVal) : String :=
  "The provided `prompt` is of `type=" ++ p.typeName ++
    "`, but it must be a `list`, make sure that `task.generate_prompt` returns a `list` or that the `formatting_fn` formats the prompt as a `list`, where each item follows OpenAI\x27s format of `\x7b\x27role\x27: ..., \x27content\x27: ...\x7d`."

/-- The keyword arguments `_generate` passes to
`_chat_completion_with_backoff` (one chat-completion request). -/
structure ChatRequest where
  model : String
  messages : List Message
  n : Nat
  temperature : ℚ
  max_tokens : Nat
deriving DecidableEq, Repr

/-- The collaborators and adapter fields one `_generate` call reads:
`task.generate_prompt(**input)`'s result, the `Prompt.format_as`
capability of that result when it is a `Prompt`, `self.formatting_fn`,
`task.parse_output` (modelled fallibly: `Except` for raise), and the
request knobs `self.model`, `self.temperature`, `self.max_new_tokens`
and the `num_generations` argument. `α` is the task-specific parsed
output type. -/
structure GenCfg (α : Type) where
  model : String
  temperature : ℚ
  max_new_tokens : Nat
  num_generations : Nat
  promptResult : PyVal
  promptFormatAs : String → PyVal
  formatting_fn : Option (PyVal → PyVal)
  parse_output : String → Except String α

/-- Python `str.strip()` with no argument removes these whitespace
characters from both ends (ASCII space, tab, newline, carriage return,
vertical tab, form feed). -/
def isPySpace (c : Char) : Bool :=
  c = ' ' || c = '\t' || c = '\n' || c = '\x0d' || c = '\x0b' || c = '\x0c'

/-- `str.strip()`: drop whitespace from the front, then from the back. -/
def pythonStrip (s : String) : String :=
  String.mk (((s.data.dropWhile isPySpace).reverse.dropWhile isPySpace).reverse)

/-- The prompt-formatting step of `_generate` (the `if`/`elif` pair after
`generate_prompt`): returns the warnings emitted and the resolved prompt.
When the result is not a `Prompt` and a `formatting_fn` is present, warn
and apply the function; when it is a `Prompt` and no function is present,
call its `format_as(format="openai")`; in the remaining two cases the
prompt falls through unchanged. -/
def resolvePrompt {α : Type} (cfg : GenCfg α) : List Warning × PyVal :=
  match cfg.promptResult.isPrompt, cfg.formatting_fn with
  | false, some fn => ([.doubleFormatting cfg.promptResult.typeName], fn cfg.promptResult)
  | true, none => ([], cfg.promptFormatAs ("openai"))
  | _, _ => ([], cfg.promptResult)

/-- The list comprehension of `_generate`'s `try` block:
`task.parse_output(choice["message"]["content"].strip())` for each choice,
in order; an exception from any element aborts the whole comprehension. -/
def parseChoices {α : Type} (parse : String → Except String α) :
    List Choice → Except String (List α)
  | [] => .ok []
  | c :: cs =>
    match parse (pythonStrip c.message.content) with
    | .error e => .error e
    | .ok x =>
      match parseChoices parse cs with
      | .error e => .error e
      | .ok xs => .ok (x :: xs)

/-- The same per-element computation as `parseChoices`, but taken over the
already-extracted list of texts handed to `parse_output`; used to state
exactly which strings the parser receives. -/
def parseTexts {α : Type} (parse : String → Except String α) :
    List String → Except String (List α)
  | [] => .ok []
  | t :: ts =>
    match parse t with
    | .error e => .error e
    | .ok x =>
      match parseTexts parse ts with
      | .error e => .error e
      | .ok xs => .ok (x :: xs)

/-- A character list neither starts nor ends with Python whitespace. -/
def isStrippedChars (l : List Char) : Bool :=
  (match l.head? with
    | none => true
    | some c => !isPySpace c)
  && (match l.getLast? with
    | none => true
    | some c => !isPySpace c)

/-- A string neither starts nor ends with Python whitespace. -/
def isStrippedStr (s : String) : Bool :=
  isStrippedChars s.data

/-- The second half of `_generate`, from the issuing of the completion
request onward (split out of `_generate` only to keep each definition
small): build the request from the resolved `list` prompt and the adapter
knobs, run the retried completion call, and parse the choices of a
successful response, degrading a parse exception to a warning plus an
empty parsed list. `ws` is the warnings emitted by the formatting step. -/
def completionStep {α : Type} (cfg : GenCfg α)
    (outcomes : Nat → Except OpenAIError RawResponse)
    (ws : List Warning) (msgs : List Message) :
    List Warning × Option ChatRequest × Except GenError (RawResponse × List α) :=
  let req : ChatRequest :=
    ⟨cfg.model, msgs, cfg.num_generations, cfg.temperature, cfg.max_new_tokens⟩
  match (_chat_completion_with_backoff outcomes).1 with
  | .error e => (ws, some req, .error (.openAIError e))
  | .ok raw =>
    match parseChoices cfg.parse_output raw.choices with
    | .ok parsed => (ws, some req, .ok (raw, parsed))
    | .error e =>
      (ws ++ [.parseWarning ("Error parsing OpenAI response: " ++ e)],
        some req, .ok (raw, []))

/-- `OpenAILLM._generate` for one input record: format the prompt, raise
`ValueError` when the resolved prompt is not a `list` (before any
request), otherwise issue the retried completion request and parse the
response. Returns the warnings emitted, the request issued (if any), and
the raised error or the `(raw, parsed)` pair. -/
def _generate {α : Type} (cfg : GenCfg α)
    (outcomes : Nat → Except OpenAIError RawResponse) :
    List Warning × Option ChatRequest × Except GenError (RawResponse × List α) :=
  let ws := (resolvePrompt cfg).1
  match (resolvePrompt cfg).2 with
  | .pyList msgs => completionStep cfg outcomes ws msgs
  | p => (ws, none, .error (.valueError p))

/-! ### Lemmas about the retry loop -/

/-- Skipping `j` consecutive transient failures: as long as the stop
condition allows at least `j` more retries, the loop behaves as if started
`j` attempts later. -/
theorem retryLoop_skip (outcomes : Nat → Except OpenAIError RawResponse) :
    ∀ (j attempt remaining : Nat), j ≤ remaining →
    (∀ i, i < j → ∃ e, outcomes (attempt + i) = .error e ∧
      _OPENAI_API_RETRY_ON_EXCEPTIONS e = true) →
    retryLoop outcomes attempt remaining =
      retryLoop outcomes (attempt + j) (remaining - j) := by
  intro j
  induction j with
  | zero => intro attempt remaining _ _; simp
  | succ n ih =>
    intro attempt remaining hle herr
    obtain ⟨rest, rfl⟩ : ∃ rest, remaining = rest + 1 := ⟨remaining - 1, by omega⟩
    obtain ⟨e, he, ht⟩ := herr 0 (Nat.succ_pos n)
    rw [Nat.add_zero] at he
    have step : retryLoop outcomes attempt (rest + 1) =
        retryLoop outcomes (attempt + 1) rest := by
      rw [retryLoop, he]
      simp [ht]
    rw [step, ih (attempt + 1) rest (by omega) (fun i hi => by
      obtain ⟨e2, he2, ht2⟩ := herr (i + 1) (by omega)
      exact ⟨e2, by rw [show attempt + 1 + i = attempt + (i + 1) by omega]; exact he2, ht2⟩)]
    congr 1 <;> omega

/-- C2: for every sequence of completion-endpoint outcomes, if the
endpoint raises a designated transient error fewer than 6 times and then
succeeds, `_chat_completion_with_backoff` returns the successful result
(after exactly the failed attempts plus one); and if it raises a
transient error on 6 consecutive attempts, the last transient error is
raised to the caller after exactly 6 attempts. -/
theorem chat_completion_retry_policy (outcomes : Nat → Except OpenAIError RawResponse) :
    (∀ k r, k < _OPENAI_API_STOP_AFTER_ATTEMPT →
      (∀ i, i < k → ∃ e, outcomes i = .error e ∧
        _OPENAI_API_RETRY_ON_EXCEPTIONS e = true) →
      outcomes k = .ok r →
      _chat_completion_with_backoff outcomes = (.ok r, k + 1))
    ∧ (∀ es : Nat → OpenAIError,
      (∀ i, i < _OPENAI_API_STOP_AFTER_ATTEMPT →
        outcomes i = .error (es i) ∧ _OPENAI_API_RETRY_ON_EXCEPTIONS (es i) = true) →
      _chat_completion_with_backoff outcomes =
        (.error (es 5), _OPENAI_API_STOP_AFTER_ATTEMPT)) := by
  constructor
  · intro k r hk herr hok
    unfold _chat_completion_with_backoff
    rw [retryLoop_skip outcomes k 0 (_OPENAI_API_STOP_AFTER_ATTEMPT - 1)
      (by unfold _OPENAI_API_STOP_AFTER_ATTEMPT at hk ⊢; omega)
      (fun i hi => by simpa using herr i hi)]
    rw [retryLoop]
    simp only [Nat.zero_add] at hok ⊢
    rw [hok]
  · intro es herr
    unfold _chat_completion_with_backoff
    rw [retryLoop_skip outcomes 5 0 (_OPENAI_API_STOP_AFTER_ATTEMPT - 1)
      (by unfold _OPENAI_API_STOP_AFTER_ATTEMPT; omega)
      (fun i hi => ⟨es i, by simpa using (herr i (by unfold _OPENAI_API_STOP_AFTER_ATTEMPT; omega))⟩)]
    obtain ⟨he5, ht5⟩ := herr 5 (by unfold _OPENAI_API_STOP_AFTER_ATTEMPT; omega)
    rw [retryLoop]
    simp only [Nat.zero_add]
    rw [he5]
    simp [ht5, _OPENAI_API_STOP_AFTER_ATTEMPT]

/-- Endpoint-outcome sequence for the C2 witness: two transient failures,
then success. -/
def retryOutcomesTransient : Nat → Except OpenAIError RawResponse
  | 0 => .error .rateLimitError
  | 1 => .error .serviceUnavailableError
  | _ => .ok ⟨[⟨⟨"assistant", "fine"⟩⟩]⟩

/-- Endpoint-outcome sequence for the C2 witness: a timeout on every
attempt. -/
def retryOutcomesAllFail : Nat → Except OpenAIError RawResponse :=
  fun _ => .error .timeout

/-- Witness for C2 at concrete outcome sequences: two transient failures
then success returns the success after 3 attempts; six consecutive
timeouts raise the timeout after 6 attempts. -/
theorem chat_completion_retry_policy_witness :
    _chat_completion_with_backoff retryOutcomesTransient =
      (.ok ⟨[⟨⟨"assistant", "fine"⟩⟩]⟩, 3)
    ∧ _chat_completion_with_backoff retryOutcomesAllFail = (.error .timeout, 6) := by
  constructor
  · exact (chat_completion_retry_policy retryOutcomesTransient).1 2 _ (by decide)
      (fun i hi => by
        interval_cases i
        · exact ⟨.rateLimitError, rfl, rfl⟩
        · exact ⟨.serviceUnavailableError, rfl, rfl⟩)
      rfl
  · exact (chat_completion_retry_policy retryOutcomesAllFail).2 (fun _ => .timeout)
      (fun i _ => ⟨rfl, rfl⟩)

/-- C3: an error raised by the completion endpoint whose kind is not in
the fixed transient set is re-raised immediately after the first attempt:
the retried call performs exactly 1 attempt, zero retries. -/
theorem non_transient_error_no_retry (outcomes : Nat → Except OpenAIError RawResponse)
    (e : OpenAIError) (h0 : outcomes 0 = .error e)
    (ht : _OPENAI_API_RETRY_ON_EXCEPTIONS e = false) :
    _chat_completion_with_backoff outcomes = (.error e, 1) := by
  unfold _chat_completion_with_backoff
  rw [retryLoop, h0]
  simp [ht]

/-- Witness for C3: an `InvalidRequestError` (not in the transient tuple)
on the first attempt is raised at once, after exactly 1 attempt. -/
theorem non_transient_error_no_retry_witness :
    _chat_completion_with_backoff (fun _ => .error .invalidRequestError) =
      (.error .invalidRequestError, 1) :=
  non_transient_error_no_retry (fun _ => .error .invalidRequestError)
    .invalidRequestError rfl rfl

/-! ### Construction-time validation -/

/-- Construction inputs with no explicit credential and no credential in
the environment, and with the requested model present in the account
list. -/
def cexInitArgs : InitArgs :=
  ⟨none, none, "gpt-3.5-turbo", [some ("gpt-3.5-turbo")]⟩

/-- C1 counterexample: constructing with no credential argument and no
credential environment variable does raise the missing-key configuration
error, but the trace shows the available-models network fetch was
attempted first — the error is not raised before the network call. -/
theorem init_missing_key_not_before_fetch_cex :
    (init cexInitArgs).2 = .error .missingApiKey
    ∧ (init cexInitArgs).1 ≠ ([] : List InitEvent) := by
  constructor
  · rfl
  · decide

/-- C1 amended: constructing with no credential argument and no credential
environment variable raises the missing-key configuration error, but only
after the available-models network fetch has been attempted (the
model-availability assert, which forces the fetch, runs before the
credential assert). -/
theorem init_missing_key_after_fetch (a : InitArgs)
    (hkey : resolveApiKey a.openai_api_key a.envApiKey = none)
    (hmodel : a.model ∈ available_models a.modelListIds) :
    init a = ([InitEvent.fetchAvailableModels], .error .missingApiKey) := by
  simp only [init]
  rw [if_pos hmodel, hkey]
  simp

/-- Witness for the amended C1 at the concrete construction inputs. -/
theorem init_missing_key_after_fetch_witness :
    init cexInitArgs = ([InitEvent.fetchAvailableModels], .error .missingApiKey) :=
  init_missing_key_after_fetch cexInitArgs rfl (by decide)

/-! ### Prompt formatting inside `_generate` -/

/-- Whatever the endpoint and the parser do, `completionStep` issues
exactly one request, built from the resolved prompt and the adapter
knobs. -/
theorem completionStep_request {α : Type} (cfg : GenCfg α)
    (outcomes : Nat → Except OpenAIError RawResponse)
    (ws : List Warning) (msgs : List Message) :
    (completionStep cfg outcomes ws msgs).2.1 =
      some ⟨cfg.model, msgs, cfg.num_generations, cfg.temperature, cfg.max_new_tokens⟩ := by
  unfold completionStep
  split
  · rfl
  · split
    · rfl
    · rfl

/-- `completionStep` only ever appends to the warnings it is handed. -/
theorem completionStep_warnings {α : Type} (cfg : GenCfg α)
    (outcomes : Nat → Except OpenAIError RawResponse)
    (ws : List Warning) (msgs : List Message) :
    ∃ extra, (completionStep cfg outcomes ws msgs).1 = ws ++ extra := by
  unfold completionStep
  split
  · exact ⟨[], by simp⟩
  · split
    · exact ⟨[], by simp⟩
    · exact ⟨_, rfl⟩

/-- C7: when `generate_prompt` returns a structured `Prompt` and no custom
formatting function is supplied, the prompt is resolved by the `Prompt`'s
`format_as` capability with formatting target "openai", and any completion
request `_generate` issues carries exactly that conversion's turns as its
messages. -/
theorem prompt_format_as_openai {α : Type} (cfg : GenCfg α)
    (outcomes : Nat → Except OpenAIError RawResponse)
    (hp : cfg.promptResult.isPrompt = true) (hf : cfg.formatting_fn = none) :
    resolvePrompt cfg = ([], cfg.promptFormatAs ("openai"))
    ∧ ∀ req : ChatRequest, (_generate cfg outcomes).2.1 = some req →
        PyVal.pyList req.messages = cfg.promptFormatAs ("openai") := by
  have h1 : resolvePrompt cfg = ([], cfg.promptFormatAs ("openai")) := by
    unfold resolvePrompt
    rw [hp, hf]
  refine ⟨h1, ?_⟩
  intro req hreq
  unfold _generate at hreq
  rw [h1] at hreq
  cases hfa : cfg.promptFormatAs ("openai") with
  | pyList msgs =>
    rw [hfa] at hreq
    rw [completionStep_request] at hreq
    obtain rfl : req = ⟨cfg.model, msgs, cfg.num_generations, cfg.temperature,
        cfg.max_new_tokens⟩ := by
      exact (Option.some_inj.mp hreq).symm
    rfl
  | promptObj => rw [hfa] at hreq; simp at hreq
  | pyStr s => rw [hfa] at hreq; simp at hreq
  | pyOther t => rw [hfa] at hreq; simp at hreq

/-- `_generate` inputs for the C7 witness: a structured `Prompt` whose
`format_as` produces a single system turn, and no custom formatting
function. -/
def cfgPromptOnly : GenCfg String :=
  ⟨"gpt-3.5-turbo", 7/10, 16, 1, .promptObj, fun _ => .pyList [⟨"system", "be brief"⟩],
    none, fun s => .ok s⟩

/-- Outcome sequence for the C7 witness: immediate success with an empty
response. -/
def emptyOkOutcomes : Nat → Except OpenAIError RawResponse :=
  fun _ => .ok ⟨[]⟩

/-- Witness for C7 at the concrete configuration: the prompt resolves to
the turns of the structured prompt's conversion with target "openai", and
the request issued carries exactly those turns. -/
theorem prompt_format_as_openai_witness :
    resolvePrompt cfgPromptOnly = ([], cfgPromptOnly.promptFormatAs ("openai"))
    ∧ PyVal.pyList
        (⟨"gpt-3.5-turbo", [⟨"system", "be brief"⟩], 1, 7/10, 16⟩ : ChatRequest).messages =
      cfgPromptOnly.promptFormatAs ("openai") := by
  have h := prompt_format_as_openai cfgPromptOnly emptyOkOutcomes rfl rfl
  exact ⟨h.1, h.2 ⟨"gpt-3.5-turbo", [⟨"system", "be brief"⟩], 1, 7/10, 16⟩ rfl⟩

/-- C8: when `generate_prompt` returns something that is not a structured
`Prompt` (already provider-native form) and a custom formatting function
is supplied, `_generate` emits the non-fatal double-formatting warning
(first in its warning output) and applies the custom function to the
prompt anyway. -/
theorem preformatted_with_formatter_warns {α : Type} (cfg : GenCfg α)
    (outcomes : Nat → Except OpenAIError RawResponse) (fn : PyVal → PyVal)
    (hp : cfg.promptResult.isPrompt = false) (hf : cfg.formatting_fn = some fn) :
    resolvePrompt cfg =
      ([Warning.doubleFormatting cfg.promptResult.typeName], fn cfg.promptResult)
    ∧ (_generate cfg outcomes).1.head? =
      some (Warning.doubleFormatting cfg.promptResult.typeName) := by
  have h1 : resolvePrompt cfg =
      ([Warning.doubleFormatting cfg.promptResult.typeName], fn cfg.promptResult) := by
    unfold resolvePrompt
    rw [hp, hf]
  refine ⟨h1, ?_⟩
  unfold _generate
  rw [h1]
  cases hfn : fn cfg.promptResult with
  | pyList msgs =>
    obtain ⟨extra, hw⟩ := completionStep_warnings cfg outcomes
      [Warning.doubleFormatting cfg.promptResult.typeName] msgs
    rw [hw]
    rfl
  | promptObj => rfl
  | pyStr s => rfl
  | pyOther t => rfl

/-- The custom formatting function used in the C8 witness: wraps a plain
string prompt into a single user turn. -/
def fnWrap : PyVal → PyVal := fun p =>
  match p with
  | .pyStr s => .pyList [⟨"user", s⟩]
  | q => q

/-- `_generate` inputs for the C8 witness: `generate_prompt` produced a
plain string and a custom formatting function is supplied. -/
def cfgPreformatted : GenCfg String :=
  ⟨"gpt-3.5-turbo", 7/10, 16, 1, .pyStr "hello", fun _ => .pyStr "unused",
    some fnWrap, fun s => .ok s⟩

/-- The raw response used by several witnesses, with two choices whose
contents carry surrounding whitespace. -/
def rawOk : RawResponse := ⟨[⟨⟨"assistant", " a "⟩⟩, ⟨⟨"assistant", "b\n"⟩⟩]⟩

/-- Endpoint outcomes used by several witnesses: immediate success with
the two-choice response. -/
def okOutcomes : Nat → Except OpenAIError RawResponse :=
  fun _ => .ok rawOk

/-- Witness for C8 at the concrete configuration: the warning names the
actual type (`str`) and the custom function is applied. -/
theorem preformatted_with_formatter_warns_witness :
    resolvePrompt cfgPreformatted =
      ([Warning.doubleFormatting ("str")], fnWrap (.pyStr "hello"))
    ∧ (_generate cfgPreformatted okOutcomes).1.head? =
      some (Warning.doubleFormatting ("str")) :=
  preformatted_with_formatter_warns cfgPreformatted okOutcomes fnWrap rfl rfl

/-- The custom formatting function of the C5 counterexample; were it
applied, it would produce a valid single-turn `list` prompt. -/
def fnCustom : PyVal → PyVal := fun _ => .pyList [⟨"user", "custom"⟩]

/-- `_generate` inputs for C5: `generate_prompt` returned a structured
`Prompt` AND a custom formatting function is supplied. -/
def cfgPromptAndFn : GenCfg String :=
  ⟨"gpt-3.5-turbo", 7/10, 128, 1, .promptObj, fun _ => .pyList [⟨"user", "hi"⟩],
    some fnCustom, fun s => .ok s⟩

/-- C5 counterexample: with a structured `Prompt` and a custom formatting
function both present, the custom function is NOT applied (the resolved
prompt is the untouched `Prompt`, not the function's output): `_generate`
instead falls through to the not-a-`list` `ValueError` and issues no
request. -/
theorem prompt_with_formatter_not_applied_cex :
    (resolvePrompt cfgPromptAndFn).2 ≠ fnCustom cfgPromptAndFn.promptResult
    ∧ _generate cfgPromptAndFn okOutcomes =
      ([], none, .error (.valueError .promptObj)) := by
  constructor
  · decide
  · rfl

/-- C5 amended: when `generate_prompt` returns a structured `Prompt` and a
custom formatting function is supplied, `_generate` applies neither the
custom function nor `format_as`: the `Prompt` falls through unchanged,
and since it is not a `list`, `_generate` raises the `ValueError` without
issuing any completion request. -/
theorem prompt_with_formatter_falls_through {α : Type} (cfg : GenCfg α)
    (outcomes : Nat → Except OpenAIError RawResponse)
    (hp : cfg.promptResult.isPrompt = true) (hf : cfg.formatting_fn.isSome = true) :
    resolvePrompt cfg = ([], cfg.promptResult)
    ∧ _generate cfg outcomes = ([], none, .error (.valueError cfg.promptResult)) := by
  obtain ⟨fn, hfn⟩ := Option.isSome_iff_exists.mp hf
  have hobj : cfg.promptResult = .promptObj := by
    cases h : cfg.promptResult <;> simp_all [PyVal.isPrompt]
  have h1 : resolvePrompt cfg = ([], cfg.promptResult) := by
    unfold resolvePrompt
    rw [hp, hfn]
  refine ⟨h1, ?_⟩
  unfold _generate
  rw [h1, hobj]

/-- Witness for the amended C5 at the concrete configuration. -/
theorem prompt_with_formatter_falls_through_witness :
    resolvePrompt cfgPromptAndFn = ([], PyVal.promptObj)
    ∧ _generate cfgPromptAndFn okOutcomes =
      ([], none, .error (.valueError PyVal.promptObj)) :=
  prompt_with_formatter_falls_through cfgPromptAndFn okOutcomes rfl rfl

/-- The characters of the middle of a three-part string concatenation
form an infix of the whole. -/
theorem data_infix_append (a b c : String) : b.data <:+: (a ++ b ++ c).data :=
  ⟨a.data, c.data, by simp⟩

/-- The `ValueError` message always contains the offending value's type
name as a substring. -/
theorem typeName_infix_valueErrorMessage (p : PyVal) :
    p.typeName.data <:+: (valueErrorMessage p).data := by
  unfold valueErrorMessage
  exact data_infix_append _ _ _

/-- C9: when the prompt remaining after formatting resolution is not a
`list`, `_generate` raises the `ValueError` carrying that value without
issuing any completion request, and the error's message contains the
actual type's name. -/
theorem non_list_prompt_value_error {α : Type} (cfg : GenCfg α)
    (outcomes : Nat → Except OpenAIError RawResponse)
    (h : (resolvePrompt cfg).2.isList = false) :
    _generate cfg outcomes =
      ((resolvePrompt cfg).1, none, .error (.valueError (resolvePrompt cfg).2))
    ∧ (resolvePrompt cfg).2.typeName.data <:+:
      (valueErrorMessage (resolvePrompt cfg).2).data := by
  refine ⟨?_, typeName_infix_valueErrorMessage _⟩
  unfold _generate
  cases hres : (resolvePrompt cfg).2 with
  | pyList msgs => rw [hres] at h; simp [PyVal.isList] at h
  | promptObj => rfl
  | pyStr s => rfl
  | pyOther t => rfl

/-- `_generate` inputs for the C9 witness: no formatting function, and
`generate_prompt` produced a plain string, which resolution leaves as a
non-`list`. -/
def cfgNonList : GenCfg String :=
  ⟨"gpt-3.5-turbo", 7/10, 16, 1, .pyStr "just text", fun _ => .pyStr "unused",
    none, fun s => .ok s⟩

/-- Witness for C9 at the concrete configuration: the `ValueError` is
raised with no request issued, and the message contains "str". -/
theorem non_list_prompt_value_error_witness :
    _generate cfgNonList okOutcomes =
      ([], none, .error (.valueError (.pyStr "just text")))
    ∧ ("str").data <:+: (valueErrorMessage (.pyStr "just text")).data := by
  have h := non_list_prompt_value_error cfgNonList okOutcomes rfl
  exact ⟨h.1, h.2⟩

/-! ### Response parsing -/

/-- The head surviving `dropWhile p` fails `p`. -/
theorem head?_dropWhile_eq_false (p : Char → Bool) :
    ∀ (l : List Char) (c : Char), (l.dropWhile p).head? = some c → p c = false := by
  intro l
  induction l with
  | nil => intro c h; simp [List.dropWhile] at h
  | cons a t ih =>
    intro c h
    by_cases hp : p a
    · rw [List.dropWhile_cons, if_pos hp] at h
      exact ih c h
    · rw [List.dropWhile_cons, if_neg hp] at h
      simp at h
      rw [← h]
      exact Bool.eq_false_iff.mpr hp

/-- `dropWhile` keeps the last element of a list when its result is
nonempty. -/
theorem getLast?_dropWhile (p : Char → Bool) :
    ∀ l : List Char, l.dropWhile p ≠ [] → (l.dropWhile p).getLast? = l.getLast? := by
  intro l
  induction l with
  | nil => intro h; simp [List.dropWhile] at h
  | cons a t ih =>
    intro h
    by_cases hp : p a
    · rw [List.dropWhile_cons, if_pos hp] at h ⊢
      rw [ih h]
      have ht : t ≠ [] := by
        intro h0
        rw [h0] at h
        simp [List.dropWhile] at h
      cases t with
      | nil => exact absurd rfl ht
      | cons b t2 => rw [List.getLast?_cons_cons]
    · rw [List.dropWhile_cons, if_neg hp]

/-- `str.strip()` leaves no whitespace at either end of its result. -/
theorem pythonStrip_isStripped (s : String) : isStrippedStr (pythonStrip s) = true := by
  unfold pythonStrip isStrippedStr isStrippedChars
  have hdata : (String.mk (((s.data.dropWhile isPySpace).reverse.dropWhile
      isPySpace).reverse)).data =
      ((s.data.dropWhile isPySpace).reverse.dropWhile isPySpace).reverse := rfl
  rw [hdata]
  rw [Bool.and_eq_true]
  set m := s.data.dropWhile isPySpace with hm
  set r := m.reverse.dropWhile isPySpace with hr
  constructor
  · rw [List.head?_reverse]
    by_cases hrnil : r = []
    · rw [hrnil]
      rfl
    · rw [hr, getLast?_dropWhile isPySpace m.reverse (by rw [← hr]; exact hrnil)]
      rw [List.getLast?_reverse]
      have hmnil : m ≠ [] := by
        intro h0
        apply hrnil
        rw [hr, h0]
        rfl
      obtain ⟨c, hmh⟩ : ∃ c, m.head? = some c := by
        cases hm2 : m with
        | nil => exact absurd hm2 hmnil
        | cons a t => exact ⟨a, rfl⟩
      rw [hmh]
      rw [hm] at hmh
      have hc : isPySpace c = false := head?_dropWhile_eq_false isPySpace s.data c hmh
      simp [hc]
  · rw [List.getLast?_reverse]
    cases hrh : r.head? with
    | none => rfl
    | some c =>
      rw [hr] at hrh
      have hc : isPySpace c = false := head?_dropWhile_eq_false isPySpace m.reverse c hrh
      simp [hc]

/-- A successful parse of the choices yields one parsed output per
choice. -/
theorem parseChoices_ok_length {α : Type} (parse : String → Except String α) :
    ∀ (l : List Choice) (xs : List α), parseChoices parse l = .ok xs →
      xs.length = l.length := by
  intro l
  induction l with
  | nil =>
    intro xs h
    rw [parseChoices] at h
    simp at h
    subst h
    rfl
  | cons c cs ih =>
    intro xs h
    rw [parseChoices] at h
    cases hp : parse (pythonStrip c.message.content) with
    | error e => rw [hp] at h; simp at h
    | ok x =>
      rw [hp] at h
      cases hrest : parseChoices parse cs with
      | error e => rw [hrest] at h; simp at h
      | ok ys =>
        rw [hrest] at h
        simp at h
        rw [← h]
        simp [ih ys hrest]

/-- If the parser fails on any member choice, the whole comprehension
fails (with the error of the first failing choice in order). -/
theorem parseChoices_error_of_mem {α : Type} (parse : String → Except String α) :
    ∀ l : List Choice,
      (∃ c, c ∈ l ∧ ∃ e, parse (pythonStrip c.message.content) = .error e) →
      ∃ e, parseChoices parse l = .error e := by
  intro l
  induction l with
  | nil =>
    intro h
    obtain ⟨c, hc, _⟩ := h
    exact absurd hc (List.not_mem_nil c)
  | cons c cs ih =>
    intro h
    rw [parseChoices]
    cases hp : parse (pythonStrip c.message.content) with
    | error e => exact ⟨e, rfl⟩
    | ok x =>
      obtain ⟨c2, hc2, e2, he2⟩ := h
      rcases List.mem_cons.mp hc2 with hhead | htail
      · rw [← hhead] at hp
        rw [hp] at he2
        simp at he2
      · obtain ⟨e3, he3⟩ := ih ⟨c2, htail, e2, he2⟩
        rw [he3]
        exact ⟨e3, rfl⟩

/-- The error text of the first failing choice, as interpolated into the
parse warning (empty when every choice parses). -/
def firstParseError {α : Type} (parse : String → Except String α)
    (l : List Choice) : String :=
  match parseChoices parse l with
  | .error e => e
  | .ok _ => ""

/-- `completionStep` when the endpoint succeeds but parsing fails: the
parse warning is appended, the parsed list is empty, and the raw response
is returned inside `.ok`. -/
theorem completionStep_parse_error {α : Type} (cfg : GenCfg α)
    (outcomes : Nat → Except OpenAIError RawResponse)
    (ws : List Warning) (msgs : List Message) (raw : RawResponse) (e : String)
    (hok : (_chat_completion_with_backoff outcomes).1 = .ok raw)
    (he : parseChoices cfg.parse_output raw.choices = .error e) :
    completionStep cfg outcomes ws msgs =
      (ws ++ [Warning.parseWarning ("Error parsing OpenAI response: " ++ e)],
        some ⟨cfg.model, msgs, cfg.num_generations, cfg.temperature, cfg.max_new_tokens⟩,
        .ok (raw, ([] : List α))) := by
  unfold completionStep
  rw [hok]
  simp only [he]

/-- C4: if the task parser raises for any one of the returned choices,
`_generate` returns an empty parsed list (length 0, not one less than the
choice count), emits a non-fatal warning carrying the error detail, does
not propagate any exception (the result is `.ok`), and still returns the
full raw response. -/
theorem parse_failure_empties_output {α : Type} (cfg : GenCfg α)
    (outcomes : Nat → Except OpenAIError RawResponse)
    (msgs : List Message) (raw : RawResponse)
    (hres : (resolvePrompt cfg).2 = .pyList msgs)
    (hok : (_chat_completion_with_backoff outcomes).1 = .ok raw)
    (hfail : ∃ c, c ∈ raw.choices ∧ ∃ e,
      cfg.parse_output (pythonStrip c.message.content) = .error e) :
    _generate cfg outcomes =
      ((resolvePrompt cfg).1 ++
        [Warning.parseWarning ("Error parsing OpenAI response: " ++
          firstParseError cfg.parse_output raw.choices)],
        some ⟨cfg.model, msgs, cfg.num_generations, cfg.temperature, cfg.max_new_tokens⟩,
        .ok (raw, ([] : List α))) := by
  obtain ⟨e, he⟩ := parseChoices_error_of_mem cfg.parse_output raw.choices hfail
  have hfe : firstParseError cfg.parse_output raw.choices = e := by
    unfold firstParseError
    rw [he]
  rw [hfe]
  unfold _generate
  rw [hres]
  exact completionStep_parse_error cfg outcomes (resolvePrompt cfg).1 msgs raw e hok he

/-- `_generate` inputs for the C4 witness: a `list` prompt and a parser
that raises on every text. -/
def cfgParseFail : GenCfg String :=
  ⟨"gpt-3.5-turbo", 7/10, 16, 2, .pyList [⟨"user", "question"⟩], fun _ => .pyStr "unused",
    none, fun _ => .error "boom"⟩

/-- Witness for C4 at a concrete two-choice response: both raw choices
are returned, the parsed list is empty, and the warning carries the
parser's error text. -/
theorem parse_failure_empties_output_witness :
    _generate cfgParseFail okOutcomes =
      ([Warning.parseWarning ("Error parsing OpenAI response: " ++
        firstParseError cfgParseFail.parse_output rawOk.choices)],
        some ⟨"gpt-3.5-turbo", [⟨"user", "question"⟩], 2, 7/10, 16⟩,
        .ok (rawOk, ([] : List String))) := by
  have h := parse_failure_empties_output cfgParseFail okOutcomes
    [⟨"user", "question"⟩] rawOk rfl rfl
    ⟨⟨⟨"assistant", " a "⟩⟩, List.mem_cons_self _ _, "boom", rfl⟩
  exact h

/-- C6: whenever `_generate` returns a `(raw, parsed)` pair, the parsed
list is no longer than the list of choices of the raw response. -/
theorem parsed_le_choices {α : Type} (cfg : GenCfg α)
    (outcomes : Nat → Except OpenAIError RawResponse)
    (ws : List Warning) (req : Option ChatRequest) (raw : RawResponse) (parsed : List α)
    (h : _generate cfg outcomes = (ws, req, .ok (raw, parsed))) :
    parsed.length ≤ raw.choices.length := by
  unfold _generate completionStep at h
  cases hres : (resolvePrompt cfg).2 with
  | promptObj => rw [hres] at h; simp [Prod.mk.injEq] at h
  | pyStr s => rw [hres] at h; simp [Prod.mk.injEq] at h
  | pyOther t => rw [hres] at h; simp [Prod.mk.injEq] at h
  | pyList msgs =>
    rw [hres] at h
    cases hcc : (_chat_completion_with_backoff outcomes).1 with
    | error e =>
      rw [hcc] at h
      simp [Prod.mk.injEq] at h
    | ok raw2 =>
      rw [hcc] at h
      cases hpc : parseChoices cfg.parse_output raw2.choices with
      | ok parsed2 =>
        simp only [hpc] at h
        simp [Prod.mk.injEq] at h
        obtain ⟨-, -, hraw, hparsed⟩ := h
        rw [← hraw, ← hparsed]
        rw [parseChoices_ok_length cfg.parse_output raw2.choices parsed2 hpc]
      | error e =>
        simp only [hpc] at h
        simp [Prod.mk.injEq] at h
        obtain ⟨-, -, hraw, hparsed⟩ := h
        rw [hparsed]
        simp

/-- `_generate` inputs for the C6 and C10 witnesses: a `list` prompt and
the identity parser. -/
def cfgListPrompt : GenCfg String :=
  ⟨"gpt-3.5-turbo", 7/10, 16, 2, .pyList [⟨"user", "question"⟩], fun _ => .pyStr "unused",
    none, fun s => .ok s⟩

/-- Witness for C6 at a concrete successful call: two parsed outputs from
two choices. -/
theorem parsed_le_choices_witness :
    (["a", "b"] : List String).length ≤ rawOk.choices.length :=
  parsed_le_choices cfgListPrompt okOutcomes _ _ _ _ rfl

/-- C10: the texts handed to `parse_output` are exactly the choices'
message contents with `str.strip()` applied, and a stripped text never
starts or ends with whitespace. -/
theorem parse_output_receives_stripped {α : Type} (parse : String → Except String α)
    (choices : List Choice) :
    parseChoices parse choices =
      parseTexts parse (choices.map (fun c => pythonStrip c.message.content))
    ∧ ∀ c, c ∈ choices → isStrippedStr (pythonStrip c.message.content) = true := by
  constructor
  · induction choices with
    | nil => rfl
    | cons c cs ih =>
      rw [parseChoices, List.map_cons, parseTexts, ih]
  · intro c _
    exact pythonStrip_isStripped c.message.content

/-- Witness for C10 at the concrete two-choice response and identity
parser: the parse runs over the stripped texts, and the first choice's
stripped content has no surrounding whitespace. -/
theorem parse_output_receives_stripped_witness :
    parseChoices (fun s => Except.ok (ε := String) s) rawOk.choices =
      parseTexts (fun s => Except.ok s)
        (rawOk.choices.map (fun c => pythonStrip c.message.content))
    ∧ isStrippedStr (pythonStrip (" a ")) = true := by
  have h := parse_output_receives_stripped (fun s => Except.ok (ε := String) s) rawOk.choices
  exact ⟨h.1, h.2 ⟨⟨"assistant", " a "⟩⟩ (List.mem_cons_self _ _)⟩

end Ultralabel
